import Mathlib

/-!
Verification of the inference request pipeline of the pestdetect backend:
the disease and pest predictors (`ml_models/disease_predictor.py`,
`ml_models/pest_predictor.py`).  The Python code is shallowly embedded:
probability vectors are lists of rationals, the advisory dictionaries are
association lists, and the CLI entry point is a pure function from its
inputs (argument list, file-system oracle, outcomes of the external
framework calls) to the lines printed on standard output plus an exit code.
-/

/-! ### Argmax (model of `np.argmax` on a 1-d array)

`np.argmax` scans the array once keeping the current maximum and replaces
it only on a strictly greater value, hence it returns the index of the
first occurrence of the maximum.  `argmaxGo` is that scan; `argmaxR` is a
structurally recursive reformulation used in the proofs, shown equal. -/

def argmaxGo : List ℚ → ℚ → Nat → Nat → Nat
  | [], _, best, _ => best
  | y :: ys, bv, best, i => if bv < y then argmaxGo ys y i (i + 1) else argmaxGo ys bv best (i + 1)

/-- Model of `np.argmax(predictions[0])`: index of the first occurrence of
the maximum value; `0` on the empty list (numpy raises there, handled at
the call site). -/
def argmax : List ℚ → Nat
  | [] => 0
  | x :: xs => argmaxGo xs x 0 1

def argmaxR : List ℚ → Nat
  | [] => 0
  | [_] => 0
  | x :: y :: t => if x < (y :: t).getD (argmaxR (y :: t)) 0 then argmaxR (y :: t) + 1 else 0

theorem getD_mem {α : Type*} :
    ∀ (l : List α) (n : Nat) (d : α), n < l.length → l.getD n d ∈ l
  | a :: t, 0, _, _ => List.mem_cons_self a t
  | a :: t, n + 1, d, h => List.mem_cons_of_mem a (getD_mem t n d (Nat.lt_of_succ_lt_succ h))
  | [], n, _, h => absurd h (Nat.not_lt_zero n)

theorem argmaxR_lt_length : ∀ l : List ℚ, l ≠ [] → argmaxR l < l.length := by
  intro l hl
  induction l with
  | nil => exact absurd rfl hl
  | cons x xs ih =>
    cases xs with
    | nil => simp [argmaxR]
    | cons y t =>
      by_cases hc : x < (y :: t).getD (argmaxR (y :: t)) 0
      · have h1 := ih (by simp)
        simp only [argmaxR, List.length_cons]
        rw [if_pos hc]
        simp only [List.length_cons] at h1
        omega
      · simp only [argmaxR, List.length_cons]
        rw [if_neg hc]
        omega

theorem argmaxR_le : ∀ (l : List ℚ) (j : Nat), j < l.length → l.getD j 0 ≤ l.getD (argmaxR l) 0 := by
  intro l
  induction l with
  | nil => intro j hj; exact absurd hj (Nat.not_lt_zero j)
  | cons x xs ih =>
    intro j hj
    cases xs with
    | nil =>
      match j, hj with
      | 0, _ => exact le_refl _
    | cons y t =>
      by_cases hc : x < (y :: t).getD (argmaxR (y :: t)) 0
      · simp only [argmaxR]
        rw [if_pos hc, List.getD_cons_succ]
        cases j with
        | zero => rw [List.getD_cons_zero]; exact le_of_lt hc
        | succ n =>
          rw [List.getD_cons_succ]
          exact ih n (Nat.lt_of_succ_lt_succ hj)
      · simp only [argmaxR]
        rw [if_neg hc, List.getD_cons_zero]
        cases j with
        | zero => rw [List.getD_cons_zero]
        | succ n =>
          rw [List.getD_cons_succ]
          exact le_trans (ih n (Nat.lt_of_succ_lt_succ hj)) (not_lt.mp hc)

theorem argmaxR_first :
    ∀ (l : List ℚ) (j : Nat), j < argmaxR l → l.getD j 0 < l.getD (argmaxR l) 0 := by
  intro l
  induction l with
  | nil => intro j hj; exact absurd hj (by simp [argmaxR])
  | cons x xs ih =>
    intro j hj
    cases xs with
    | nil => exact absurd hj (by simp [argmaxR])
    | cons y t =>
      by_cases hc : x < (y :: t).getD (argmaxR (y :: t)) 0
      · simp only [argmaxR] at hj ⊢
        rw [if_pos hc] at hj ⊢
        rw [List.getD_cons_succ]
        cases j with
        | zero => rw [List.getD_cons_zero]; exact hc
        | succ n =>
          rw [List.getD_cons_succ]
          exact ih n (Nat.lt_of_succ_lt_succ hj)
      · simp only [argmaxR] at hj
        rw [if_neg hc] at hj
        exact absurd hj (Nat.not_lt_zero j)

theorem argmaxGo_eq :
    ∀ (l : List ℚ) (bv : ℚ) (best i : Nat), l ≠ [] →
      argmaxGo l bv best i = if bv < l.getD (argmaxR l) 0 then i + argmaxR l else best := by
  intro l
  induction l with
  | nil => intro bv best i h; exact absurd rfl h
  | cons y t ih =>
    intro bv best i _
    cases t with
    | nil => simp [argmaxGo, argmaxR]
    | cons z s =>
      have hne : z :: s ≠ [] := by simp
      have l1 : argmaxGo (y :: z :: s) bv best i =
          if bv < y then argmaxGo (z :: s) y i (i + 1)
          else argmaxGo (z :: s) bv best (i + 1) := rfl
      rw [l1, ih y i (i + 1) hne, ih bv best (i + 1) hne]
      by_cases hc : y < (z :: s).getD (argmaxR (z :: s)) 0
      · have hR : argmaxR (y :: z :: s) = argmaxR (z :: s) + 1 := by
          simp only [argmaxR]; rw [if_pos hc]
        rw [hR, List.getD_cons_succ]
        by_cases hby : bv < y
        · have hbvt : bv < (z :: s).getD (argmaxR (z :: s)) 0 := lt_trans hby hc
          rw [if_pos hby, if_pos hc, if_pos hbvt]
          omega
        · rw [if_neg hby]
          by_cases hbv : bv < (z :: s).getD (argmaxR (z :: s)) 0
          · rw [if_pos hbv, if_pos hbv]; omega
          · rw [if_neg hbv, if_neg hbv]
      · have hR : argmaxR (y :: z :: s) = 0 := by
          simp only [argmaxR]; rw [if_neg hc]
        rw [hR, List.getD_cons_zero]
        by_cases hby : bv < y
        · rw [if_pos hby, if_neg hc, if_pos hby]; omega
        · have hnb : ¬ bv < (z :: s).getD (argmaxR (z :: s)) 0 :=
            not_lt.mpr (le_trans (not_lt.mp hc) (not_lt.mp hby))
          rw [if_neg hby, if_neg hnb, if_neg hby]

theorem argmax_eq_argmaxR : ∀ l : List ℚ, argmax l = argmaxR l := by
  intro l
  cases l with
  | nil => rfl
  | cons x xs =>
    cases xs with
    | nil => rfl
    | cons y t =>
      have hne : y :: t ≠ [] := by simp
      show argmaxGo (y :: t) x 0 1 = argmaxR (x :: y :: t)
      rw [argmaxGo_eq (y :: t) x 0 1 hne]
      by_cases hc : x < (y :: t).getD (argmaxR (y :: t)) 0
      · rw [if_pos hc]
        simp only [argmaxR]
        rw [if_pos hc]
        omega
      · rw [if_neg hc]
        simp only [argmaxR]
        rw [if_neg hc]

theorem argmax_lt_length (l : List ℚ) (hl : l ≠ []) : argmax l < l.length := by
  rw [argmax_eq_argmaxR]; exact argmaxR_lt_length l hl

theorem argmax_le (l : List ℚ) (j : Nat) (hj : j < l.length) :
    l.getD j 0 ≤ l.getD (argmax l) 0 := by
  rw [argmax_eq_argmaxR]; exact argmaxR_le l j hj

theorem argmax_first (l : List ℚ) (j : Nat) (hj : j < argmax l) :
    l.getD j 0 < l.getD (argmax l) 0 := by
  rw [argmax_eq_argmaxR] at hj ⊢; exact argmaxR_first l j hj

example : argmax [(1 : ℚ)/10, 7/10, 2/10] = 1 := by norm_num [argmax, argmaxGo]
example : argmax [(5 : ℚ), 5, 3] = 0 := by decide
example : argmax (List.replicate 37 (0 : ℚ) ++ [1]) = 37 := by decide

/-! ### String helpers (models of the Python string operations used)

The labels are ASCII, so `str.lower`/`str.upper` are modelled by the
ASCII case maps; `a in b` on strings is substring containment;
`str.replace('_', ' ')` is a character map since the pattern has length
one. -/

def asciiLower (c : Char) : Char :=
  if 'A' ≤ c && c ≤ 'Z' then Char.ofNat (c.toNat + 32) else c

def lowerStr (s : String) : String :=
  String.mk (s.data.map asciiLower)

def asciiUpper (c : Char) : Char :=
  if 'a' ≤ c && c ≤ 'z' then Char.ofNat (c.toNat - 32) else c

def underscoreToSpace (c : Char) : Char :=
  if c = '_' then ' ' else c

/-- Model of `predicted_class.upper().replace('_', ' ')` in
`PestPredictor.predict`. -/
def pestDisplay (s : String) : String :=
  String.mk ((s.data.map asciiUpper).map underscoreToSpace)

def startsWithSeq : List Char → List Char → Bool
  | [], _ => true
  | _ :: _, [] => false
  | a :: as, b :: bs => a == b && startsWithSeq as bs

def hasSeq (sub : List Char) : List Char → Bool
  | [] => startsWithSeq sub []
  | c :: rest => startsWithSeq sub (c :: rest) || hasSeq sub rest

/-- Model of the Python substring test `sub in s`. -/
def pyIn (sub s : String) : Bool :=
  hasSeq sub.data s.data

/-- Model of `'healthy' in predicted_class.lower()` in
`DiseasePredictor.predict`. -/
def healthyIn (s : String) : Bool :=
  pyIn "healthy" (lowerStr s)

theorem startsWithSeq_append (l r : List Char) : startsWithSeq l (l ++ r) = true := by
  induction l with
  | nil => rfl
  | cons a as ih => simp [startsWithSeq, ih]

theorem hasSeq_of_startsWithSeq (sub s : List Char) (h : startsWithSeq sub s = true) :
    hasSeq sub s = true := by
  cases s with
  | nil => exact h
  | cons c cs => simp [hasSeq, h]

theorem hasSeq_append_self (sub r : List Char) : hasSeq sub (sub ++ r) = true :=
  hasSeq_of_startsWithSeq sub (sub ++ r) (startsWithSeq_append sub r)

theorem data_append (s t : String) : (s ++ t).data = s.data ++ t.data := by
  cases s; cases t; rfl

example : healthyIn "Tomato_healthy" = true := by decide
example : healthyIn "Apple_scab" = false := by decide
example : healthyIn "HEALTHY plant" = true := by decide
example : pestDisplay "stem_borer" = "STEM BORER" := by decide

/-! ### Data model: advisory records and prediction responses -/

deriving instance DecidableEq for Except

structure Pesticide where
  name : String
  dosage : String
  type : String
deriving DecidableEq

structure Advisory where
  description : String
  treatment : String
  pesticide : Pesticide
deriving DecidableEq

/-- The response object assembled by `predict`:
`{detected_class, confidence, description, treatment, pesticide}`. -/
structure PredictResult where
  detected_class : String
  confidence : ℚ
  description : String
  treatment : String
  pesticide : Pesticide
deriving DecidableEq

/-- Model of Python `dict.get(key)` on an advisory table (keys are
unique, insertion order irrelevant for lookup). -/
def lookupAdvisory (info : List (String × Advisory)) (k : String) : Option Advisory :=
  (info.find? (fun p => p.1 == k)).map (fun p => p.2)

/-! ### Fixed label lists and static advisory tables (transcribed from the
constructors of `DiseasePredictor` and `PestPredictor`) -/

def disease_class_names : List String :=
  ["Apple_scab", "Apple_Black_rot", "Apple_Cedar_apple_rust", "Apple_healthy",
   "Blueberry_healthy", "Cherry_Powdery_mildew", "Cherry_healthy",
   "Corn_Cercospora_leaf_spot", "Corn_Common_rust", "Corn_Northern_Leaf_Blight", "Corn_healthy",
   "Grape_Black_rot", "Grape_Esca", "Grape_Leaf_blight", "Grape_healthy",
   "Orange_Haunglongbing", "Peach_Bacterial_spot", "Peach_healthy",
   "Pepper_Bacterial_spot", "Pepper_healthy",
   "Potato_Early_blight", "Potato_Late_blight", "Potato_healthy",
   "Raspberry_healthy", "Soybean_healthy",
   "Squash_Powdery_mildew", "Strawberry_Leaf_scorch", "Strawberry_healthy",
   "Tomato_Bacterial_spot", "Tomato_Early_blight", "Tomato_Late_blight",
   "Tomato_Leaf_Mold", "Tomato_Septoria_leaf_spot", "Tomato_Spider_mites",
   "Tomato_Target_Spot", "Tomato_Yellow_Leaf_Curl_Virus", "Tomato_mosaic_virus",
   "Tomato_healthy"]

def pest_class_names : List String :=
  ["aphids", "armyworm", "beetle", "bollworm", "earthworm",
   "grasshopper", "mites", "mosquito", "sawfly", "stem_borer"]

def disease_info : List (String × Advisory) :=
  [("Apple_scab",
    ⟨"Fungal disease causing dark, scaly lesions on leaves and fruit",
     "Apply fungicides like Mancozeb or Copper sulfate",
     ⟨"Mancozeb", "2-3 g/L", "Fungicide"⟩⟩),
   ("Apple_Black_rot",
    ⟨"Fungal disease causing black cankers on branches and fruit rot",
     "Prune infected areas and apply Captan or Thiophanate-methyl",
     ⟨"Captan", "2-3 g/L", "Fungicide"⟩⟩),
   ("Apple_Cedar_apple_rust",
    ⟨"Fungal disease causing yellow-orange spots on leaves",
     "Apply Propiconazole or Myclobutanil fungicides",
     ⟨"Propiconazole", "1-2 ml/L", "Fungicide"⟩⟩),
   ("Corn_Cercospora_leaf_spot",
    ⟨"Fungal disease causing small rectangular lesions on leaves",
     "Apply Azoxystrobin or Tebuconazole fungicides",
     ⟨"Azoxystrobin", "1-1.5 ml/L", "Fungicide"⟩⟩),
   ("Corn_Common_rust",
    ⟨"Fungal disease causing small oval rust pustules on leaves",
     "Apply Chlorothalonil or Propiconazole fungicides",
     ⟨"Chlorothalonil", "2-3 ml/L", "Fungicide"⟩⟩),
   ("Corn_Northern_Leaf_Blight",
    ⟨"Fungal disease causing large grayish-green lesions on leaves",
     "Apply Mancozeb or Azoxystrobin fungicides",
     ⟨"Mancozeb", "2-3 g/L", "Fungicide"⟩⟩),
   ("Tomato_Early_blight",
    ⟨"Fungal disease causing brown spots with concentric rings on leaves",
     "Apply Chlorothalonil or Mancozeb fungicides",
     ⟨"Chlorothalonil", "2-3 ml/L", "Fungicide"⟩⟩),
   ("Tomato_Late_blight",
    ⟨"Devastating fungal disease causing water-soaked lesions",
     "Apply Metalaxyl or Copper-based fungicides immediately",
     ⟨"Metalaxyl", "2-3 g/L", "Fungicide"⟩⟩),
   ("Tomato_Leaf_Mold",
    ⟨"Fungal disease causing yellow patches on upper leaf surface",
     "Improve air circulation and apply Chlorothalonil",
     ⟨"Chlorothalonil", "2-3 ml/L", "Fungicide"⟩⟩)]

def pest_info : List (String × Advisory) :=
  [("aphids",
    ⟨"Small soft-bodied insects that feed on plant sap",
     "Apply Imidacloprid or use biological control with ladybugs",
     ⟨"Imidacloprid", "0.5-1 ml/L", "Systemic Insecticide"⟩⟩),
   ("armyworm",
    ⟨"Caterpillars that feed on leaves and can cause severe defoliation",
     "Apply Chlorantraniliprole or Spinetoram insecticides",
     ⟨"Chlorantraniliprole", "150-300 ml/ha", "Systemic Insecticide"⟩⟩),
   ("beetle",
    ⟨"Hard-bodied insects that chew on leaves and stems",
     "Apply Cypermethrin or use mechanical removal",
     ⟨"Cypermethrin", "1-2 ml/L", "Contact Insecticide"⟩⟩),
   ("bollworm",
    ⟨"Caterpillars that bore into cotton bolls and other fruits",
     "Apply Emamectin benzoate or Profenofos",
     ⟨"Emamectin benzoate", "0.5 g/L", "Systemic Insecticide"⟩⟩),
   ("earthworm",
    ⟨"Beneficial organisms that improve soil health",
     "No treatment needed - earthworms are beneficial for soil",
     ⟨"No treatment needed", "N/A", "Beneficial"⟩⟩),
   ("grasshopper",
    ⟨"Jumping insects that feed on leaves and can cause defoliation",
     "Apply Carbaryl or use biological control with Nosema locustae",
     ⟨"Carbaryl", "2-3 g/L", "Contact Insecticide"⟩⟩),
   ("mites",
    ⟨"Tiny arachnids that cause stippling and yellowing of leaves",
     "Apply Abamectin or increase humidity around plants",
     ⟨"Abamectin", "1-2 ml/L", "Acaricide"⟩⟩),
   ("mosquito",
    ⟨"Flying insects; adults are not harmful to plants",
     "Control breeding sites and use Bt for larvae",
     ⟨"Bacillus thuringiensis", "1-2 g/L", "Biological"⟩⟩),
   ("sawfly",
    ⟨"Wasp-like insects whose larvae feed on leaves",
     "Apply Spinosad or use biological control",
     ⟨"Spinosad", "1-2 ml/L", "Biological Insecticide"⟩⟩),
   ("stem_borer",
    ⟨"Caterpillars that bore into plant stems causing wilting",
     "Apply Chlorantraniliprole or Cartap hydrochloride",
     ⟨"Chlorantraniliprole", "150-300 ml/ha", "Systemic Insecticide"⟩⟩)]

/-- Default used by `self.disease_info.get(predicted_class, {...})`. -/
def diseaseFallback : Advisory :=
  ⟨"Disease detected", "Consult agricultural expert for treatment",
   ⟨"General Fungicide", "As per label", "Fungicide"⟩⟩

/-- The fixed record installed when `'healthy' in predicted_class.lower()`. -/
def healthyOverride : Advisory :=
  ⟨"Plant appears healthy", "Continue regular care and monitoring",
   ⟨"No treatment needed", "N/A", "N/A"⟩⟩

/-- Default used by `self.pest_info.get(predicted_class, {...})`. -/
def pestFallback : Advisory :=
  ⟨"Pest detected", "Consult agricultural expert for treatment",
   ⟨"General Insecticide", "As per label", "Insecticide"⟩⟩

/-! ### Result composition (`predict`, given the probability vector
`predictions[0]` returned by the external forward pass)

`predict` wraps every fault as `Exception("Prediction error: " + str(e))`:
an empty vector makes `np.argmax` raise, an argmax index beyond the label
list makes `self.class_names[idx]` raise `IndexError`; both surface here
as `Except.error` with the wrapped message.  The advisory table is a
parameter (the method reads `self.disease_info` / `self.pest_info`). -/

def disease_compose (info : List (String × Advisory)) (probs : List ℚ) :
    Except String PredictResult :=
  if probs.isEmpty then
    Except.error "Prediction error: attempt to get argmax of an empty sequence"
  else
    match disease_class_names[argmax probs]? with
    | none => Except.error "Prediction error: list index out of range"
    | some label =>
      let adv := if healthyIn label then healthyOverride
                 else (lookupAdvisory info label).getD diseaseFallback
      Except.ok ⟨label, probs.getD (argmax probs) 0,
                 adv.description, adv.treatment, adv.pesticide⟩

def pest_compose (info : List (String × Advisory)) (probs : List ℚ) :
    Except String PredictResult :=
  if probs.isEmpty then
    Except.error "Prediction error: attempt to get argmax of an empty sequence"
  else
    match pest_class_names[argmax probs]? with
    | none => Except.error "Prediction error: list index out of range"
    | some label =>
      let adv := (lookupAdvisory info label).getD pestFallback
      Except.ok ⟨pestDisplay label, probs.getD (argmax probs) 0,
                 adv.description, adv.treatment, adv.pesticide⟩

example : disease_class_names.length = 38 := by decide
example : pest_class_names.length = 10 := by decide
example : lookupAdvisory disease_info "Apple_healthy" = none := by decide
example : (lookupAdvisory pest_info "stem_borer").isSome = true := by decide

example : disease_compose disease_info [1] =
    Except.ok ⟨"Apple_scab", 1, "Fungal disease causing dark, scaly lesions on leaves and fruit",
      "Apply fungicides like Mancozeb or Copper sulfate",
      ⟨"Mancozeb", "2-3 g/L", "Fungicide"⟩⟩ := by decide

example : disease_compose disease_info (List.replicate 37 0 ++ [1]) =
    Except.ok ⟨"Tomato_healthy", 1, "Plant appears healthy",
      "Continue regular care and monitoring",
      ⟨"No treatment needed", "N/A", "N/A"⟩⟩ := by decide

example : pest_compose pest_info (List.replicate 9 0 ++ [1]) =
    Except.ok ⟨"STEM BORER", 1, "Caterpillars that bore into plant stems causing wilting",
      "Apply Chlorantraniliprole or Cartap hydrochloride",
      ⟨"Chlorantraniliprole", "150-300 ml/ha", "Systemic Insecticide"⟩⟩ := by decide

/-! ### CLI entry point (`__main__` block of both scripts)

Standard output is modelled structurally: a `print(json.dumps({'error':
msg}))` is one `jsonError` line, a `print(json.dumps(result))` one
`jsonResult` line, any other `print` a `raw` line.  The external effects
are oracles: `fsExists` models `os.path.exists`, `frameworkLoad` the
outcome of the framework's `load_model` call on an existing path, and
`predictOutcome` the outcome of `predictor.predict(image_path)`.  `args`
is the positional argument list, i.e. `sys.argv[1:]`, so the source check
`len(sys.argv) != 3` is `args.length ≠ 2`.  `sys.exit(1)` after the usage
print raises `SystemExit`, which `except Exception` does not catch, so
the usage path prints exactly one line. -/

inductive OutLine where
  | raw : String → OutLine
  | jsonError : String → OutLine
  | jsonResult : PredictResult → OutLine
deriving DecidableEq

structure CliOutcome where
  stdout : List OutLine
  exitCode : Nat
deriving DecidableEq

/-- Model of `load_model`: on a missing path it prints the diagnostic line
and raises `FileNotFoundError("Model file not found: " + path)`; if the
framework call itself fails it prints the diagnostic and re-raises.
Returns the printed lines and the raised message, if any. -/
def load_model (fsExists : String → Bool) (frameworkLoad : Except String Unit)
    (path : String) : List OutLine × Option String :=
  if fsExists path then
    match frameworkLoad with
    | Except.ok _ => ([], none)
    | Except.error e => ([OutLine.raw ("Error loading model: " ++ e)], some e)
  else
    ([OutLine.raw ("Error loading model: " ++ ("Model file not found: " ++ path))],
     some ("Model file not found: " ++ path))

def disease_usage : String := "Usage: python disease_predictor.py <model_path> <image_path>"

def pest_usage : String := "Usage: python pest_predictor.py <model_path> <image_path>"

def cliMain (usage : String) (fsExists : String → Bool) (frameworkLoad : Except String Unit)
    (predictOutcome : Except String PredictResult) (args : List String) : CliOutcome :=
  if args.length ≠ 2 then ⟨[OutLine.jsonError usage], 1⟩
  else
    match load_model fsExists frameworkLoad (args.getD 0 "") with
    | (lines, some e) => ⟨lines ++ [OutLine.jsonError e], 1⟩
    | (lines, none) =>
      match predictOutcome with
      | Except.ok r => ⟨lines ++ [OutLine.jsonResult r], 0⟩
      | Except.error e => ⟨lines ++ [OutLine.jsonError e], 1⟩

def diseaseMain : (String → Bool) → Except String Unit → Except String PredictResult →
    List String → CliOutcome :=
  cliMain disease_usage

def pestMain : (String → Bool) → Except String Unit → Except String PredictResult →
    List String → CliOutcome :=
  cliMain pest_usage

/-! ### Image preprocessing (`preprocess_image`)

The decoded image delivered by `cv2.imread` is a height by width array of
3-channel `uint8` pixels in BGR order, embedded as nested lists of `Nat`
values bounded by 255.  `cv2.cvtColor(..., COLOR_BGR2RGB)` reverses each
pixel's channels.  Normalisation divides by 255 into `ℚ`, and
`np.expand_dims(img, axis=0)` wraps the batch dimension. -/

abbrev RawImg : Type := List (List (List Nat))

def cvtBGR2RGB (img : RawImg) : RawImg :=
  img.map (fun row => row.map List.reverse)

/-- Modelled from the spec: `cv2.resize` is an external image-codec
capability absent from the repository; section 4.2 requires resizing to
exactly 224 by 224 with "any deterministic interpolation", so it is
modelled as deterministic nearest-neighbour sampling, which maps `uint8`
pixels to existing `uint8` pixels. -/
def resizeModel (img : RawImg) (dstH dstW : Nat) : RawImg :=
  let srcH := img.length
  let srcW := (img.getD 0 []).length
  (List.range dstH).map (fun i =>
    (List.range dstW).map (fun j =>
      (img.getD (i * srcH / dstH) []).getD (j * srcW / dstW) []))

def normalizeImg (img : RawImg) : List (List (List ℚ)) :=
  img.map
    (fun row => row.map (fun px => px.map (fun v : Nat => (v : ℚ) / 255)))

def preprocess_image (decoded : RawImg) : List (List (List (List ℚ))) :=
  [normalizeImg (resizeModel (cvtBGR2RGB decoded) 224 224)]

/-- What `cv2.imread` guarantees for a successfully decoded image: a
nonempty rectangular `h` by `w` grid of 3-channel pixels with `uint8`
values. -/
def ValidRaw (h w : Nat) (img : RawImg) : Prop :=
  img.length = h ∧ 0 < h ∧ 0 < w ∧
    ∀ row ∈ img, row.length = w ∧
      ∀ px ∈ row, px.length = 3 ∧ ∀ v ∈ px, v ≤ 255

/-! ### Characterisations of the composers -/

theorem disease_compose_ok (info : List (String × Advisory)) (probs : List ℚ) (label : String)
    (hne : probs ≠ []) (hlab : disease_class_names[argmax probs]? = some label) :
    disease_compose info probs =
      Except.ok ⟨label, probs.getD (argmax probs) 0,
        (if healthyIn label then healthyOverride
         else (lookupAdvisory info label).getD diseaseFallback).description,
        (if healthyIn label then healthyOverride
         else (lookupAdvisory info label).getD diseaseFallback).treatment,
        (if healthyIn label then healthyOverride
         else (lookupAdvisory info label).getD diseaseFallback).pesticide⟩ := by
  cases probs with
  | nil => exact absurd rfl hne
  | cons a t =>
    unfold disease_compose
    rw [hlab]
    simp only [List.isEmpty_cons, Bool.false_eq_true, if_false]

theorem disease_compose_idx_err (info : List (String × Advisory)) (probs : List ℚ)
    (hne : probs ≠ []) (hge : disease_class_names.length ≤ argmax probs) :
    disease_compose info probs = Except.error "Prediction error: list index out of range" := by
  have hnone : disease_class_names[argmax probs]? = none := List.getElem?_eq_none hge
  cases probs with
  | nil => exact absurd rfl hne
  | cons a t =>
    unfold disease_compose
    rw [hnone]
    simp only [List.isEmpty_cons, Bool.false_eq_true, if_false]

theorem disease_compose_isOk (info : List (String × Advisory)) (probs : List ℚ)
    (hne : probs ≠ []) (hlt : argmax probs < disease_class_names.length) :
    ∃ r, disease_compose info probs = Except.ok r := by
  obtain ⟨label, hlab⟩ : ∃ label, disease_class_names[argmax probs]? = some label :=
    ⟨_, List.getElem?_eq_getElem hlt⟩
  exact ⟨_, disease_compose_ok info probs label hne hlab⟩

theorem pest_compose_ok (info : List (String × Advisory)) (probs : List ℚ) (label : String)
    (hne : probs ≠ []) (hlab : pest_class_names[argmax probs]? = some label) :
    pest_compose info probs =
      Except.ok ⟨pestDisplay label, probs.getD (argmax probs) 0,
        ((lookupAdvisory info label).getD pestFallback).description,
        ((lookupAdvisory info label).getD pestFallback).treatment,
        ((lookupAdvisory info label).getD pestFallback).pesticide⟩ := by
  cases probs with
  | nil => exact absurd rfl hne
  | cons a t =>
    unfold pest_compose
    rw [hlab]
    simp only [List.isEmpty_cons, Bool.false_eq_true, if_false]

theorem pest_compose_idx_err (info : List (String × Advisory)) (probs : List ℚ)
    (hne : probs ≠ []) (hge : pest_class_names.length ≤ argmax probs) :
    pest_compose info probs = Except.error "Prediction error: list index out of range" := by
  have hnone : pest_class_names[argmax probs]? = none := List.getElem?_eq_none hge
  cases probs with
  | nil => exact absurd rfl hne
  | cons a t =>
    unfold pest_compose
    rw [hnone]
    simp only [List.isEmpty_cons, Bool.false_eq_true, if_false]

theorem pest_compose_isOk (info : List (String × Advisory)) (probs : List ℚ)
    (hne : probs ≠ []) (hlt : argmax probs < pest_class_names.length) :
    ∃ r, pest_compose info probs = Except.ok r := by
  obtain ⟨label, hlab⟩ : ∃ label, pest_class_names[argmax probs]? = some label :=
    ⟨_, List.getElem?_eq_getElem hlt⟩
  exact ⟨_, pest_compose_ok info probs label hne hlab⟩

theorem disease_compose_confidence (info : List (String × Advisory)) (probs : List ℚ)
    (r : PredictResult) (h : disease_compose info probs = Except.ok r) :
    r.confidence = probs.getD (argmax probs) 0 ∧
      disease_class_names[argmax probs]? = some r.detected_class := by
  cases probs with
  | nil => exact absurd h (by simp [disease_compose])
  | cons a t =>
    revert h
    unfold disease_compose
    simp only [List.isEmpty_cons, Bool.false_eq_true, if_false]
    cases hlab : disease_class_names[argmax (a :: t)]? with
    | none => intro h; exact absurd h (by simp)
    | some label =>
      intro h
      injection h with h'
      subst h'
      exact ⟨rfl, rfl⟩

/-! ### Claims about result composition -/

/-- C1: the Result Composer selects the index of the maximum value of the
probability vector, with ties broken by the lowest index (first
occurrence wins), and the reported confidence equals the probability at
that index, as-is; in particular for [0.1, 0.7, 0.2] the selected index
is 1 and the confidence 0.7. -/
theorem C1_argmax_selection :
    (∀ probs : List ℚ, probs ≠ [] →
      argmax probs < probs.length ∧
      (∀ j : Nat, j < probs.length → probs.getD j 0 ≤ probs.getD (argmax probs) 0) ∧
      (∀ j : Nat, j < argmax probs → probs.getD j 0 < probs.getD (argmax probs) 0)) ∧
    (∀ (info : List (String × Advisory)) (probs : List ℚ) (r : PredictResult),
      disease_compose info probs = Except.ok r →
      r.confidence = probs.getD (argmax probs) 0 ∧
        disease_class_names[argmax probs]? = some r.detected_class) ∧
    argmax [(1 : ℚ)/10, 7/10, 2/10] = 1 ∧
    [(1 : ℚ)/10, 7/10, 2/10].getD (argmax [(1 : ℚ)/10, 7/10, 2/10]) 0 = 7/10 := by
  refine ⟨fun probs hne =>
      ⟨argmax_lt_length probs hne, fun j hj => argmax_le probs j hj,
       fun j hj => argmax_first probs j hj⟩,
    fun info probs r h => disease_compose_confidence info probs r h, ?_, ?_⟩
  · norm_num [argmax, argmaxGo]
  · norm_num [argmax, argmaxGo]

/-- Witness for C1 at the concrete vector [0.1, 0.7, 0.2]. -/
theorem C1_witness :
    ([(1 : ℚ)/10, 7/10, 2/10] ≠ ([] : List ℚ)) ∧
    argmax [(1 : ℚ)/10, 7/10, 2/10] < [(1 : ℚ)/10, 7/10, 2/10].length :=
  ⟨by simp, (C1_argmax_selection.1 [(1 : ℚ)/10, 7/10, 2/10] (by simp)).1⟩

/-- C2 counterexample: a probability vector of length 1, although the
disease label set has 38 entries, is not rejected — the composer happily
produces a result. -/
theorem C2_counterexample :
    [(1 : ℚ)].length ≠ disease_class_names.length ∧
    disease_compose disease_info [1] =
      Except.ok ⟨"Apple_scab", 1,
        "Fungal disease causing dark, scaly lesions on leaves and fruit",
        "Apply fungicides like Mancozeb or Copper sulfate",
        ⟨"Mancozeb", "2-3 g/L", "Fungicide"⟩⟩ :=
  ⟨by decide, by decide⟩

/-- C2 amended: the Result Composer performs no length validation, so a
vector of mismatched length is not rejected with an InferenceError.  In
either pipeline: every nonempty vector shorter than the label list
produces a result; a longer vector also produces a result whenever its
argmax index is within the label list, and fails only when the argmax
index falls outside it, with the generic wrapped IndexError message,
not a dedicated InferenceError; the empty vector fails with the wrapped
numpy ValueError, again not a dedicated InferenceError. -/
theorem C2_no_length_validation :
    ((∀ probs : List ℚ, probs ≠ [] → probs.length < disease_class_names.length →
        ∃ r, disease_compose disease_info probs = Except.ok r) ∧
     (∀ probs : List ℚ, probs ≠ [] → argmax probs < disease_class_names.length →
        ∃ r, disease_compose disease_info probs = Except.ok r) ∧
     (∀ probs : List ℚ, probs ≠ [] → disease_class_names.length ≤ argmax probs →
        disease_compose disease_info probs =
          Except.error "Prediction error: list index out of range") ∧
     disease_compose disease_info [] =
       Except.error "Prediction error: attempt to get argmax of an empty sequence") ∧
    ((∀ probs : List ℚ, probs ≠ [] → probs.length < pest_class_names.length →
        ∃ r, pest_compose pest_info probs = Except.ok r) ∧
     (∀ probs : List ℚ, probs ≠ [] → argmax probs < pest_class_names.length →
        ∃ r, pest_compose pest_info probs = Except.ok r) ∧
     (∀ probs : List ℚ, probs ≠ [] → pest_class_names.length ≤ argmax probs →
        pest_compose pest_info probs =
          Except.error "Prediction error: list index out of range") ∧
     pest_compose pest_info [] =
       Except.error "Prediction error: attempt to get argmax of an empty sequence") :=
  ⟨⟨fun probs hne hlen =>
      disease_compose_isOk disease_info probs hne
        (lt_trans (argmax_lt_length probs hne) hlen),
    fun probs hne hlt => disease_compose_isOk disease_info probs hne hlt,
    fun probs hne hge => disease_compose_idx_err disease_info probs hne hge,
    rfl⟩,
   ⟨fun probs hne hlen =>
      pest_compose_isOk pest_info probs hne
        (lt_trans (argmax_lt_length probs hne) hlen),
    fun probs hne hlt => pest_compose_isOk pest_info probs hne hlt,
    fun probs hne hge => pest_compose_idx_err pest_info probs hne hge,
    rfl⟩⟩

/-- Witness for C2 at the concrete length-1 vector, shorter than the
38-entry disease label list. -/
theorem C2_witness :
    (([(1 : ℚ)] : List ℚ) ≠ []) ∧ [(1 : ℚ)].length < disease_class_names.length ∧
    ∃ r, disease_compose disease_info [1] = Except.ok r :=
  ⟨by simp, by decide, C2_no_length_validation.1.1 [1] (by simp) (by decide)⟩

/-- C3 counterexample: the disease label list does not have 37 entries. -/
theorem C3_counterexample :
    ¬ (disease_class_names.length = 37 ∧ pest_class_names.length = 10) := by
  decide

/-- C3 amended: the disease pipeline's fixed ordered label set has 38
entries (not 37), and the pest pipeline's has 10. -/
theorem C3_label_counts :
    disease_class_names.length = 38 ∧ pest_class_names.length = 10 := by
  decide

/-- C4: in the disease pipeline, whenever the predicted label contains
the substring "healthy" case-insensitively, the advisory record in the
response is the fixed no-treatment-needed record, whatever the advisory
table holds; in particular "Tomato_healthy" always yields description
"Plant appears healthy". -/
theorem C4_healthy_override :
    (∀ (info : List (String × Advisory)) (probs : List ℚ) (label : String),
      probs ≠ [] →
      disease_class_names[argmax probs]? = some label →
      healthyIn label = true →
      disease_compose info probs =
        Except.ok ⟨label, probs.getD (argmax probs) 0, "Plant appears healthy",
          "Continue regular care and monitoring",
          ⟨"No treatment needed", "N/A", "N/A"⟩⟩) ∧
    (∀ info : List (String × Advisory),
      disease_compose info (List.replicate 37 (0 : ℚ) ++ [1]) =
        Except.ok ⟨"Tomato_healthy", 1, "Plant appears healthy",
          "Continue regular care and monitoring",
          ⟨"No treatment needed", "N/A", "N/A"⟩⟩) := by
  have main : ∀ (info : List (String × Advisory)) (probs : List ℚ) (label : String),
      probs ≠ [] →
      disease_class_names[argmax probs]? = some label →
      healthyIn label = true →
      disease_compose info probs =
        Except.ok ⟨label, probs.getD (argmax probs) 0, "Plant appears healthy",
          "Continue regular care and monitoring",
          ⟨"No treatment needed", "N/A", "N/A"⟩⟩ := by
    intro info probs label hne hlab hh
    rw [disease_compose_ok info probs label hne hlab]
    simp [hh, healthyOverride]
  refine ⟨main, fun info => ?_⟩
  have h1 : disease_class_names[argmax (List.replicate 37 (0 : ℚ) ++ [1])]? =
      some "Tomato_healthy" := by decide
  have h2 : (List.replicate 37 (0 : ℚ) ++ [1]).getD
      (argmax (List.replicate 37 (0 : ℚ) ++ [1])) 0 = 1 := by decide
  rw [main info _ "Tomato_healthy" (by simp) h1 (by decide), h2]

/-- Witness for C4 at the basis vector selecting "Tomato_healthy". -/
theorem C4_witness :
    ((List.replicate 37 (0 : ℚ) ++ [1]) ≠ []) ∧
    disease_class_names[argmax (List.replicate 37 (0 : ℚ) ++ [1])]? = some "Tomato_healthy" ∧
    healthyIn "Tomato_healthy" = true ∧
    disease_compose disease_info (List.replicate 37 (0 : ℚ) ++ [1]) =
      Except.ok ⟨"Tomato_healthy",
        (List.replicate 37 (0 : ℚ) ++ [1]).getD (argmax (List.replicate 37 (0 : ℚ) ++ [1])) 0,
        "Plant appears healthy", "Continue regular care and monitoring",
        ⟨"No treatment needed", "N/A", "N/A"⟩⟩ :=
  ⟨by simp, by decide, by decide,
   C4_healthy_override.1 disease_info (List.replicate 37 (0 : ℚ) ++ [1]) "Tomato_healthy"
     (by simp) (by decide) (by decide)⟩

/-- C5 counterexample: the label "Apple_healthy" is absent from the
disease advisory table, yet the composed response carries the healthy
override record, not the generic fallback record. -/
theorem C5_counterexample :
    lookupAdvisory disease_info "Apple_healthy" = none ∧
    disease_compose disease_info (List.replicate 3 (0 : ℚ) ++ 1 :: List.replicate 34 0) =
      Except.ok ⟨"Apple_healthy", 1, "Plant appears healthy",
        "Continue regular care and monitoring",
        ⟨"No treatment needed", "N/A", "N/A"⟩⟩ ∧
    "Plant appears healthy" ≠ diseaseFallback.description :=
  ⟨by decide, by decide, by decide⟩

/-- C5 amended: a predicted label absent from the advisory table never
causes a lookup failure; the response carries the generic fallback
record, except in the disease pipeline for labels containing "healthy"
case-insensitively, where the healthy override record is used instead. -/
theorem C5_fallback_record :
    (∀ (info : List (String × Advisory)) (probs : List ℚ) (label : String),
      probs ≠ [] →
      disease_class_names[argmax probs]? = some label →
      lookupAdvisory info label = none →
      healthyIn label = false →
      disease_compose info probs =
        Except.ok ⟨label, probs.getD (argmax probs) 0, "Disease detected",
          "Consult agricultural expert for treatment",
          ⟨"General Fungicide", "As per label", "Fungicide"⟩⟩) ∧
    (∀ (info : List (String × Advisory)) (probs : List ℚ) (label : String),
      probs ≠ [] →
      pest_class_names[argmax probs]? = some label →
      lookupAdvisory info label = none →
      pest_compose info probs =
        Except.ok ⟨pestDisplay label, probs.getD (argmax probs) 0, "Pest detected",
          "Consult agricultural expert for treatment",
          ⟨"General Insecticide", "As per label", "Insecticide"⟩⟩) := by
  constructor
  · intro info probs label hne hlab hlook hh
    rw [disease_compose_ok info probs label hne hlab]
    simp [hh, hlook, diseaseFallback]
  · intro info probs label hne hlab hlook
    rw [pest_compose_ok info probs label hne hlab]
    simp [hlook, pestFallback]

/-- Witness for C5 at the basis vector selecting "Grape_Black_rot",
which is absent from the disease advisory table. -/
theorem C5_witness :
    ((List.replicate 11 (0 : ℚ) ++ 1 :: List.replicate 26 0) ≠ []) ∧
    disease_class_names[argmax (List.replicate 11 (0 : ℚ) ++ 1 :: List.replicate 26 0)]? =
      some "Grape_Black_rot" ∧
    lookupAdvisory disease_info "Grape_Black_rot" = none ∧
    healthyIn "Grape_Black_rot" = false ∧
    disease_compose disease_info (List.replicate 11 (0 : ℚ) ++ 1 :: List.replicate 26 0) =
      Except.ok ⟨"Grape_Black_rot",
        (List.replicate 11 (0 : ℚ) ++ 1 :: List.replicate 26 0).getD
          (argmax (List.replicate 11 (0 : ℚ) ++ 1 :: List.replicate 26 0)) 0,
        "Disease detected", "Consult agricultural expert for treatment",
        ⟨"General Fungicide", "As per label", "Fungicide"⟩⟩ :=
  ⟨by simp, by decide, by decide, by decide,
   C5_fallback_record.1 disease_info (List.replicate 11 (0 : ℚ) ++ 1 :: List.replicate 26 0)
     "Grape_Black_rot" (by simp) (by decide) (by decide) (by decide)⟩

/-- C6: in the pest pipeline, the response's detected_class is the label
uppercased with underscores replaced by spaces, while the advisory
lookup uses the original label; in particular "stem_borer" is rendered
"STEM BORER" and looked up as "stem_borer". -/
theorem C6_pest_display_format :
    (∀ (info : List (String × Advisory)) (probs : List ℚ) (label : String),
      probs ≠ [] →
      pest_class_names[argmax probs]? = some label →
      pest_compose info probs =
        Except.ok ⟨pestDisplay label, probs.getD (argmax probs) 0,
          ((lookupAdvisory info label).getD pestFallback).description,
          ((lookupAdvisory info label).getD pestFallback).treatment,
          ((lookupAdvisory info label).getD pestFallback).pesticide⟩) ∧
    pestDisplay "stem_borer" = "STEM BORER" ∧
    pest_compose pest_info (List.replicate 9 (0 : ℚ) ++ [1]) =
      Except.ok ⟨"STEM BORER", 1, "Caterpillars that bore into plant stems causing wilting",
        "Apply Chlorantraniliprole or Cartap hydrochloride",
        ⟨"Chlorantraniliprole", "150-300 ml/ha", "Systemic Insecticide"⟩⟩ :=
  ⟨fun info probs label hne hlab => pest_compose_ok info probs label hne hlab,
   by decide, by decide⟩

/-- Witness for C6 at the basis vector selecting "stem_borer". -/
theorem C6_witness :
    ((List.replicate 9 (0 : ℚ) ++ [1]) ≠ []) ∧
    pest_class_names[argmax (List.replicate 9 (0 : ℚ) ++ [1])]? = some "stem_borer" ∧
    pest_compose pest_info (List.replicate 9 (0 : ℚ) ++ [1]) =
      Except.ok ⟨pestDisplay "stem_borer",
        (List.replicate 9 (0 : ℚ) ++ [1]).getD (argmax (List.replicate 9 (0 : ℚ) ++ [1])) 0,
        ((lookupAdvisory pest_info "stem_borer").getD pestFallback).description,
        ((lookupAdvisory pest_info "stem_borer").getD pestFallback).treatment,
        ((lookupAdvisory pest_info "stem_borer").getD pestFallback).pesticide⟩ :=
  ⟨by simp, by decide,
   C6_pest_display_format.1 pest_info (List.replicate 9 (0 : ℚ) ++ [1]) "stem_borer"
     (by simp) (by decide)⟩

/-- C10: every pest label has an explicit entry in the static pest
advisory table, so for every in-range predicted index the generic pest
fallback branch is unreachable and the response's advisory fields come
from the table entry for the predicted label. -/
theorem C10_pest_table_total :
    (∀ label ∈ pest_class_names, (lookupAdvisory pest_info label).isSome = true) ∧
    (∀ (probs : List ℚ) (label : String) (adv : Advisory),
      probs ≠ [] →
      pest_class_names[argmax probs]? = some label →
      lookupAdvisory pest_info label = some adv →
      pest_compose pest_info probs =
        Except.ok ⟨pestDisplay label, probs.getD (argmax probs) 0,
          adv.description, adv.treatment, adv.pesticide⟩) := by
  constructor
  · decide
  · intro probs label adv hne hlab hlook
    rw [pest_compose_ok pest_info probs label hne hlab, hlook]
    simp [Option.getD_some]

/-- Witness for C10 at the vector selecting "aphids". -/
theorem C10_witness :
    (([(1 : ℚ)] : List ℚ) ≠ []) ∧
    pest_class_names[argmax [(1 : ℚ)]]? = some "aphids" ∧
    lookupAdvisory pest_info "aphids" =
      some ⟨"Small soft-bodied insects that feed on plant sap",
        "Apply Imidacloprid or use biological control with ladybugs",
        ⟨"Imidacloprid", "0.5-1 ml/L", "Systemic Insecticide"⟩⟩ ∧
    pest_compose pest_info [1] =
      Except.ok ⟨pestDisplay "aphids", [(1 : ℚ)].getD (argmax [(1 : ℚ)]) 0,
        "Small soft-bodied insects that feed on plant sap",
        "Apply Imidacloprid or use biological control with ladybugs",
        ⟨"Imidacloprid", "0.5-1 ml/L", "Systemic Insecticide"⟩⟩ :=
  ⟨by simp, by decide, by decide,
   C10_pest_table_total.2 [1] "aphids"
     ⟨"Small soft-bodied insects that feed on plant sap",
      "Apply Imidacloprid or use biological control with ladybugs",
      ⟨"Imidacloprid", "0.5-1 ml/L", "Systemic Insecticide"⟩⟩
     (by simp) (by decide) (by decide)⟩

/-! ### Claims about the CLI entry point -/

theorem cliMain_usage (usage : String) (fsE : String → Bool) (fl : Except String Unit)
    (po : Except String PredictResult) (args : List String) (h : args.length ≠ 2) :
    cliMain usage fsE fl po args = ⟨[OutLine.jsonError usage], 1⟩ := by
  unfold cliMain
  rw [if_pos h]

theorem cliMain_missing_model (usage : String) (fsE : String → Bool) (fl : Except String Unit)
    (po : Except String PredictResult) (mp ip : String) (h : fsE mp = false) :
    cliMain usage fsE fl po [mp, ip] =
      ⟨[OutLine.raw ("Error loading model: " ++ ("Model file not found: " ++ mp)),
        OutLine.jsonError ("Model file not found: " ++ mp)], 1⟩ := by
  unfold cliMain load_model
  rw [if_neg (by simp : ¬([mp, ip].length ≠ 2))]
  simp only [List.getD_cons_zero]
  rw [h]
  simp

theorem cliMain_load_failure (usage : String) (fsE : String → Bool)
    (po : Except String PredictResult) (mp ip e : String) (h : fsE mp = true) :
    cliMain usage fsE (Except.error e) po [mp, ip] =
      ⟨[OutLine.raw ("Error loading model: " ++ e), OutLine.jsonError e], 1⟩ := by
  unfold cliMain load_model
  rw [if_neg (by simp : ¬([mp, ip].length ≠ 2))]
  simp only [List.getD_cons_zero]
  rw [h]
  simp

theorem cliMain_predict_failure (usage : String) (fsE : String → Bool) (mp ip e : String)
    (h : fsE mp = true) :
    cliMain usage fsE (Except.ok ()) (Except.error e) [mp, ip] =
      ⟨[OutLine.jsonError e], 1⟩ := by
  unfold cliMain load_model
  rw [if_neg (by simp : ¬([mp, ip].length ≠ 2))]
  simp only [List.getD_cons_zero]
  rw [h]
  simp

theorem pyIn_model_not_found (mp : String) :
    pyIn "Model file not found" ("Model file not found: " ++ mp) = true := by
  have h2 : ("Model file not found: " : String).data =
      "Model file not found".data ++ (": " : String).data := by decide
  have h1 : ("Model file not found: " ++ mp).data =
      "Model file not found".data ++ ((": " : String).data ++ mp.data) := by
    rw [data_append, h2, List.append_assoc]
  unfold pyIn
  rw [h1]
  exact hasSeq_append_self _ _

/-- C7 counterexample: with a non-existent model path the process writes
two lines to standard output — a raw diagnostic line and then the JSON
error object — not a single JSON object. -/
theorem C7_counterexample :
    (diseaseMain (fun _ => false) (Except.ok ()) (Except.error "")
        ["model.h5", "leaf.jpg"]).stdout =
      [OutLine.raw "Error loading model: Model file not found: model.h5",
       OutLine.jsonError "Model file not found: model.h5"] ∧
    (diseaseMain (fun _ => false) (Except.ok ()) (Except.error "")
        ["model.h5", "leaf.jpg"]).stdout.length ≠ 1 :=
  ⟨by decide, by decide⟩

/-- C7 amended: every failure terminates with exit status 1 and the JSON
error object is the last line on standard output; in the model-loading
failure paths a raw diagnostic line "Error loading model: ..." precedes
it (so stdout is not a single JSON object there), while a prediction
failure with a loaded model emits exactly the single JSON error object;
for a non-existent model path the message contains "Model file not
found". -/
theorem C7_error_reporting :
    (∀ (fsE : String → Bool) (fl : Except String Unit) (po : Except String PredictResult)
       (mp ip : String), fsE mp = false →
      diseaseMain fsE fl po [mp, ip] =
        ⟨[OutLine.raw ("Error loading model: " ++ ("Model file not found: " ++ mp)),
          OutLine.jsonError ("Model file not found: " ++ mp)], 1⟩ ∧
      pestMain fsE fl po [mp, ip] =
        ⟨[OutLine.raw ("Error loading model: " ++ ("Model file not found: " ++ mp)),
          OutLine.jsonError ("Model file not found: " ++ mp)], 1⟩ ∧
      pyIn "Model file not found" ("Model file not found: " ++ mp) = true) ∧
    (∀ (fsE : String → Bool) (po : Except String PredictResult) (mp ip e : String),
      fsE mp = true →
      diseaseMain fsE (Except.error e) po [mp, ip] =
        ⟨[OutLine.raw ("Error loading model: " ++ e), OutLine.jsonError e], 1⟩) ∧
    (∀ (fsE : String → Bool) (mp ip e : String), fsE mp = true →
      diseaseMain fsE (Except.ok ()) (Except.error e) [mp, ip] =
        ⟨[OutLine.jsonError e], 1⟩) :=
  ⟨fun fsE fl po mp ip h =>
     ⟨cliMain_missing_model disease_usage fsE fl po mp ip h,
      cliMain_missing_model pest_usage fsE fl po mp ip h,
      pyIn_model_not_found mp⟩,
   fun fsE po mp ip e h => cliMain_load_failure disease_usage fsE po mp ip e h,
   fun fsE mp ip e h => cliMain_predict_failure disease_usage fsE mp ip e h⟩

/-- Witness for C7 at a concrete missing model path. -/
theorem C7_witness :
    ((fun _ : String => false) "model.h5" = false) ∧
    (diseaseMain (fun _ => false) (Except.ok ()) (Except.error "x") ["model.h5", "leaf.jpg"] =
      ⟨[OutLine.raw ("Error loading model: " ++ ("Model file not found: " ++ "model.h5")),
        OutLine.jsonError ("Model file not found: " ++ "model.h5")], 1⟩ ∧
     pestMain (fun _ => false) (Except.ok ()) (Except.error "x") ["model.h5", "leaf.jpg"] =
      ⟨[OutLine.raw ("Error loading model: " ++ ("Model file not found: " ++ "model.h5")),
        OutLine.jsonError ("Model file not found: " ++ "model.h5")], 1⟩ ∧
     pyIn "Model file not found" ("Model file not found: " ++ "model.h5") = true) :=
  ⟨rfl, C7_error_reporting.1 (fun _ => false) (Except.ok ()) (Except.error "x")
     "model.h5" "leaf.jpg" rfl⟩

/-- C8: a CLI invocation with any positional argument count other than
exactly two emits the usage-error JSON object and exits with status 1,
never an unhandled fault. -/
theorem C8_usage_error :
    ∀ (fsE : String → Bool) (fl : Except String Unit) (po : Except String PredictResult)
      (args : List String), args.length ≠ 2 →
      diseaseMain fsE fl po args = ⟨[OutLine.jsonError disease_usage], 1⟩ ∧
      pestMain fsE fl po args = ⟨[OutLine.jsonError pest_usage], 1⟩ :=
  fun fsE fl po args h =>
    ⟨cliMain_usage disease_usage fsE fl po args h,
     cliMain_usage pest_usage fsE fl po args h⟩

/-- Witness for C8 at the empty argument list. -/
theorem C8_witness :
    (([] : List String).length ≠ 2) ∧
    diseaseMain (fun _ => true) (Except.ok ()) (Except.error "") [] =
      ⟨[OutLine.jsonError disease_usage], 1⟩ ∧
    pestMain (fun _ => true) (Except.ok ()) (Except.error "") [] =
      ⟨[OutLine.jsonError pest_usage], 1⟩ :=
  ⟨by simp, C8_usage_error (fun _ => true) (Except.ok ()) (Except.error "") [] (by simp)⟩


/-! ### Claim about image preprocessing -/

/-- C9: for every successfully decoded input image, of any size and
aspect ratio, the preprocessed tensor has shape (1, 224, 224, 3) and
every value lies in [0, 1], each being a decoded-range pixel value
divided by 255. -/
theorem C9_preprocess_shape :
    ∀ (h w : Nat) (decoded : RawImg), ValidRaw h w decoded →
      (preprocess_image decoded).length = 1 ∧
      ∀ t ∈ preprocess_image decoded,
        t.length = 224 ∧
        ∀ row ∈ t, row.length = 224 ∧
          ∀ px ∈ row, px.length = 3 ∧
            ∀ v ∈ px, 0 ≤ v ∧ v ≤ 1 ∧ ∃ n : Nat, n ≤ 255 ∧ v = (n : ℚ) / 255 := by
  intro h w decoded hv
  obtain ⟨hlen, hh, hw, hrows⟩ := hv
  have hrgblen : (cvtBGR2RGB decoded).length = h := by
    simp [cvtBGR2RGB, hlen]
  have hrgbrows : ∀ row ∈ cvtBGR2RGB decoded,
      row.length = w ∧ ∀ px ∈ row, px.length = 3 ∧ ∀ v ∈ px, v ≤ 255 := by
    intro row hrow
    simp only [cvtBGR2RGB, List.mem_map] at hrow
    obtain ⟨row0, hrow0, rfl⟩ := hrow
    obtain ⟨hrl, hpx⟩ := hrows row0 hrow0
    refine ⟨by simp [hrl], ?_⟩
    intro px hpxm
    simp only [List.mem_map] at hpxm
    obtain ⟨px0, hpx0, rfl⟩ := hpxm
    obtain ⟨hpl, hvals⟩ := hpx px0 hpx0
    exact ⟨by simp [hpl], fun v hvm => hvals v (List.mem_reverse.mp hvm)⟩
  have hsrcW : ((cvtBGR2RGB decoded).getD 0 []).length = w := by
    have h0 : (cvtBGR2RGB decoded).getD 0 [] ∈ cvtBGR2RGB decoded :=
      getD_mem _ 0 [] (by rw [hrgblen]; exact hh)
    exact (hrgbrows _ h0).1
  refine ⟨rfl, ?_⟩
  intro t ht
  have ht' : t = normalizeImg (resizeModel (cvtBGR2RGB decoded) 224 224) := by
    simpa [preprocess_image] using ht
  subst ht'
  refine ⟨by simp [normalizeImg, resizeModel], ?_⟩
  intro row hrow
  simp only [normalizeImg, resizeModel, List.mem_map, List.mem_range] at hrow
  obtain ⟨rrow, ⟨i, hi, rfl⟩, rfl⟩ := hrow
  refine ⟨by simp, ?_⟩
  intro px hpx
  simp only [List.mem_map, List.mem_range] at hpx
  obtain ⟨px0, ⟨j, hj, rfl⟩, rfl⟩ := hpx
  have hidx : i * (cvtBGR2RGB decoded).length / 224 < (cvtBGR2RGB decoded).length := by
    rw [hrgblen]
    refine (Nat.div_lt_iff_lt_mul (by omega)).mpr ?_
    calc i * h < 224 * h := mul_lt_mul_of_pos_right hi hh
      _ = h * 224 := Nat.mul_comm _ _
  have hRmem : (cvtBGR2RGB decoded).getD (i * (cvtBGR2RGB decoded).length / 224) [] ∈
      cvtBGR2RGB decoded := getD_mem _ _ _ hidx
  obtain ⟨hRlen, hRpx⟩ := hrgbrows _ hRmem
  have hjdx : j * ((cvtBGR2RGB decoded).getD 0 []).length / 224 <
      ((cvtBGR2RGB decoded).getD (i * (cvtBGR2RGB decoded).length / 224) []).length := by
    rw [hsrcW, hRlen]
    refine (Nat.div_lt_iff_lt_mul (by omega)).mpr ?_
    calc j * w < 224 * w := mul_lt_mul_of_pos_right hj hw
      _ = w * 224 := Nat.mul_comm _ _
  have hpx0mem : ((cvtBGR2RGB decoded).getD (i * (cvtBGR2RGB decoded).length / 224) []).getD
      (j * ((cvtBGR2RGB decoded).getD 0 []).length / 224) [] ∈
      (cvtBGR2RGB decoded).getD (i * (cvtBGR2RGB decoded).length / 224) [] :=
    getD_mem _ _ _ hjdx
  obtain ⟨hplen, hpvals⟩ := hRpx _ hpx0mem
  refine ⟨by rw [List.length_map]; exact hplen, ?_⟩
  intro v hv
  simp only [List.mem_map] at hv
  obtain ⟨n, hn, rfl⟩ := hv
  have hn255 : n ≤ 255 := hpvals n hn
  refine ⟨by positivity, ?_, n, hn255, rfl⟩
  rw [div_le_one (by norm_num : (0 : ℚ) < 255)]
  exact_mod_cast hn255

/-- Witness for C9 at a concrete 1 by 1 decoded image. -/
theorem C9_witness :
    ValidRaw 1 1 [[[10, 20, 30]]] ∧ (preprocess_image [[[10, 20, 30]]]).length = 1 :=
  ⟨by unfold ValidRaw; decide,
   (C9_preprocess_shape 1 1 [[[10, 20, 30]]] (by unfold ValidRaw; decide)).1⟩
